import Mathlib

/-!
Shallow embedding of the image-compressor HTTP service layer
(`src/server.ts`, `src/middleware/auth.ts`) and of the base64 codec used
for its request/response payloads.

The external native image library (decode / resize / encode of pixels) is
modelled as an opaque oracle (`SharpModel`, `MetadataModel`); everything the
service's own code does — option mapping with JavaScript truthiness
semantics, resize planning, format dispatch, request validation, the auth
gate, and base64 framing — is translated directly from the TypeScript
source.
-/

namespace ImageCompressor

set_option autoImplicit false

/-- A JavaScript value as it may appear in the loosely-typed `options`
bag of a request body. A missing key is `Option.none` (JS `undefined`). -/
inductive JsVal where
  | num  (n : Int)
  | bool (b : Bool)
  | str  (s : String)
deriving DecidableEq

/-- JavaScript truthiness of a value: `0`, `false` and `""` are falsy. -/
def JsVal.truthy : JsVal → Bool
  | .num n  => n != 0
  | .bool b => b
  | .str s  => s != ""

/-- JavaScript `x || d` for a possibly-absent value `x`
(`undefined` and every falsy value fall through to the default). -/
def jsOr (v : Option JsVal) (d : JsVal) : JsVal :=
  match v with
  | some x => if x.truthy then x else d
  | none   => d

/-- JavaScript `x !== false` for a possibly-absent value. -/
def jsNeqFalse (v : Option JsVal) : Bool :=
  v != some (JsVal.bool false)

/-- JavaScript `x === true` for a possibly-absent value. -/
def jsEqTrue (v : Option JsVal) : Bool :=
  v == some (JsVal.bool true)

/-- The option keys the service reads from the request's `options` object
(`server.ts` format switch). Absent keys are `none`. -/
structure Options where
  quality       : Option JsVal := none
  progressive   : Option JsVal := none
  lossless      : Option JsVal := none
  near_lossless : Option JsVal := none
  use_sharp_yuv : Option JsVal := none
  method        : Option JsVal := none
  effort        : Option JsVal := none
  level         : Option JsVal := none
  interlace     : Option JsVal := none
deriving DecidableEq

/-- The argument object of `sharpInstance.jpeg({...})`, `server.ts`
lines 181-185 and 300-304 (the two sites are textually identical). -/
structure JpegOptions where
  quality  : JsVal
  progressive : Bool
  mozjpeg  : Bool
deriving DecidableEq

/-- `quality: options.quality || 75, progressive: options.progressive !== false,
mozjpeg: true`. -/
def jpegOptions (options : Options) : JpegOptions :=
  { quality := jsOr options.quality (.num 75)
    progressive := jsNeqFalse options.progressive
    mozjpeg := true }

/-- The argument object of `sharpInstance.webp({...})`, `server.ts`
lines 190-196 and 309-315. -/
structure WebpOptions where
  quality        : JsVal
  lossless       : Bool
  nearLossless   : Bool
  smartSubsample : Bool
  effort         : JsVal
deriving DecidableEq

/-- `quality: options.quality || 75, lossless: options.lossless === true,
nearLossless: options.near_lossless === true,
smartSubsample: options.use_sharp_yuv !== false, effort: options.method || 4`. -/
def webpOptions (options : Options) : WebpOptions :=
  { quality := jsOr options.quality (.num 75)
    lossless := jsEqTrue options.lossless
    nearLossless := jsEqTrue options.near_lossless
    smartSubsample := jsNeqFalse options.use_sharp_yuv
    effort := jsOr options.method (.num 4) }

/-- The argument object of `sharpInstance.avif({...})`, `server.ts`
lines 200-204 and 320-324. -/
structure AvifOptions where
  quality  : JsVal
  lossless : Bool
  effort   : JsVal
deriving DecidableEq

/-- `quality: options.quality || 50, lossless: options.lossless === true,
effort: options.effort || 4`. -/
def avifOptions (options : Options) : AvifOptions :=
  { quality := jsOr options.quality (.num 50)
    lossless := jsEqTrue options.lossless
    effort := jsOr options.effort (.num 4) }

/-- The argument object of `sharpInstance.png({...})`, `server.ts`
lines 209-213 and 330-334. -/
structure PngOptions where
  compressionLevel : JsVal
  progressive      : Bool
  effort           : JsVal
deriving DecidableEq

/-- `compressionLevel: options.level || 2, progressive: options.interlace === true,
effort: options.effort || 7`. -/
def pngOptions (options : Options) : PngOptions :=
  { compressionLevel := jsOr options.level (.num 2)
    progressive := jsEqTrue options.interlace
    effort := jsOr options.effort (.num 7) }

/-- Sharp `fit` values the service produces. -/
inductive Fit where
  | fill | inside | cover
deriving DecidableEq

/-- Sharp `kernel` values the service produces. -/
inductive Kernel where
  | lanczos3 | mitchell | cubic
deriving DecidableEq

/-- The `resize` object of a `/compress` request body
(TS type: `enabled`, optional `width`, `height`, `method`, `fitMethod`). -/
structure ResizeRequest where
  enabled   : Bool := false
  width     : Option Int := none
  height    : Option Int := none
  method    : Option String := none
  fitMethod : Option String := none
deriving DecidableEq

/-- The `sharp.ResizeOptions` object built by the `/compress` handler;
a `none` field was simply not assigned, leaving the library default. -/
structure ResizeOptions where
  width  : Option Int := none
  height : Option Int := none
  fit    : Option Fit := none
  kernel : Option Kernel := none
deriving DecidableEq

/-- `server.ts` lines 135-169: `if (resize.width) resizeOptions.width = ...`
(JS truthiness: `0` is not assigned), `if (resize.fitMethod) switch ...`
(`"stretch"` to fill, `"contain"` to inside, default cover; an empty string is
falsy so nothing is assigned), `if (resize.method) switch ...` (`"lanczos3"`,
`"mitchell"`, `"catrom"` to cubic, default lanczos3). -/
def buildResizeOptions (resize : ResizeRequest) : ResizeOptions :=
  let w : Option Int := match resize.width with
    | some w => if w != 0 then some w else none
    | none => none
  let h : Option Int := match resize.height with
    | some h => if h != 0 then some h else none
    | none => none
  let f : Option Fit := match resize.fitMethod with
    | some s =>
        if s != "" then
          some (if s = "stretch" then .fill else if s = "contain" then .inside else .cover)
        else none
    | none => none
  let k : Option Kernel := match resize.method with
    | some s =>
        if s != "" then
          some (if s = "lanczos3" then .lanczos3
                else if s = "mitchell" then .mitchell
                else if s = "catrom" then .cubic
                else .lanczos3)
        else none
    | none => none
  { width := w, height := h, fit := f, kernel := k }

/-- Effective fit seen by the library: sharp's documented default when the
service did not assign `fit` is `cover`. -/
def ResizeOptions.effectiveFit (o : ResizeOptions) : Fit :=
  o.fit.getD .cover

/-- Effective kernel seen by the library: sharp's documented default when the
service did not assign `kernel` is `lanczos3`. -/
def ResizeOptions.effectiveKernel (o : ResizeOptions) : Kernel :=
  o.kernel.getD .lanczos3

/-- A fully mapped encoder configuration: which encoder entry point the
format switch selected, with its mapped options. -/
inductive EncodeConfig where
  | jpeg (o : JpegOptions)
  | webp (o : WebpOptions)
  | avif (o : AvifOptions)
  | png  (o : PngOptions)
deriving DecidableEq

/-- The format switch shared verbatim by the `/compress` and `/compress/file`
handlers (`server.ts` lines 178-219 and 297-341): `"mozjpeg"`/`"jpeg"` select
the jpeg encoder, `"webp"` webp, `"avif"` avif, `"oxipng"`/`"png"` png, and any
other string falls to the `default` arm (`none` here). -/
def encodeDispatch (format : String) (options : Options) : Option EncodeConfig :=
  if format = "mozjpeg" ∨ format = "jpeg" then some (.jpeg (jpegOptions options))
  else if format = "webp" then some (.webp (webpOptions options))
  else if format = "avif" then some (.avif (avifOptions options))
  else if format = "oxipng" ∨ format = "png" then some (.png (pngOptions options))
  else none

/-- `outputFormat` as computed by the `/compress` handler: initialised to the
caller's string (line 176) and reassigned to `"mozjpeg"` in the jpeg arm
(line 186) and to `"oxipng"` in the png arm (line 214); webp and avif keep
the caller's string. Only evaluated on the supported branches. -/
def outputFormatOf (format : String) : String :=
  if format = "mozjpeg" ∨ format = "jpeg" then "mozjpeg"
  else if format = "oxipng" ∨ format = "png" then "oxipng"
  else format

/-- The `contentType` assigned by the `/compress/file` format switch. -/
def contentTypeOf (format : String) : String :=
  if format = "mozjpeg" ∨ format = "jpeg" then "image/jpeg"
  else if format = "webp" then "image/webp"
  else if format = "avif" then "image/avif"
  else "image/png"

/-! ### Base64

Node's `Buffer.prototype.toString("base64")` is standard RFC 4648 base64 with
`=` padding; `Buffer.from(s, "base64")` reads sextets until padding. A byte
is `Fin 256`. -/

/-- The 64-character base64 alphabet, in value order. -/
def b64alphabet : List Char :=
  "ABCDEFGHIJKLMNOPQRSTUVWXYZabcdefghijklmnopqrstuvwxyz0123456789+/".toList

/-- Character for a sextet value. -/
def sextetChar (n : Nat) : Char := b64alphabet.getD n 'A'

/-- Sextet value of an alphabet character (its index in the alphabet). -/
def sextetVal (c : Char) : Nat := b64alphabet.indexOf c

/-- Base64 encoding of a byte list, three bytes to four characters, with
`=` padding of the final partial group. -/
def b64encodeChars : List (Fin 256) → List Char
  | [] => []
  | [a] => [sextetChar (a.val / 4), sextetChar (a.val % 4 * 16), '=', '=']
  | [a, b] => [sextetChar (a.val / 4), sextetChar (a.val % 4 * 16 + b.val / 16),
               sextetChar (b.val % 16 * 4), '=']
  | a :: b :: c :: rest =>
      sextetChar (a.val / 4) :: sextetChar (a.val % 4 * 16 + b.val / 16) ::
      sextetChar (b.val % 16 * 4 + c.val / 64) :: sextetChar (c.val % 64) ::
      b64encodeChars rest

/-- Reassemble bytes from a list of sextet values (padding already removed):
four sextets yield three bytes; two or three trailing sextets yield one or
two bytes. -/
def sextetsToBytes : List Nat → List Nat
  | s0 :: s1 :: s2 :: s3 :: rest =>
      (s0 * 4 + s1 / 16) :: (s1 % 16 * 16 + s2 / 4) :: (s2 % 4 * 64 + s3) ::
      sextetsToBytes rest
  | [s0, s1] => [s0 * 4 + s1 / 16]
  | [s0, s1, s2] => [s0 * 4 + s1 / 16, s1 % 16 * 16 + s2 / 4]
  | _ => []

/-- Base64 decoding: read characters up to the first `=`, take their sextet
values, reassemble bytes. -/
def b64decodeChars (s : List Char) : List Nat :=
  sextetsToBytes ((s.takeWhile (fun c => c != '=')).map sextetVal)

/-- `outputBuffer.toString("base64")`. -/
def b64encode (l : List (Fin 256)) : String := String.mk (b64encodeChars l)

/-- `Buffer.from(image, "base64")`, as byte values. -/
def b64decode (s : String) : List Nat := b64decodeChars s.data

/-! ### The external image library and the requests -/

/-- The opaque pixel pipeline, in the two phases the source exercises at
different points. `create` is the synchronous phase — the
`sharp(inputBuffer)` constructor plus, when requested, `.resize(options)` —
which in the handlers runs BEFORE the format switch and can throw
synchronously (sharp throws `Input Buffer is empty` on a zero-byte input,
and `.resize` rejects bad dimensions); such a throw lands in the catch
block as a 500 with the thrown message. `toBuffer` is the encoder call plus
`await sharpInstance.toBuffer()`, whose rejection is likewise a 500. -/
structure SharpModel where
  create   : List Nat → Option ResizeOptions → Except String Unit
  toBuffer : List Nat → Option ResizeOptions → EncodeConfig → Except String (List (Fin 256))

/-- The opaque `sharp(buffer).metadata()` call used by `/info`: either an
error message or possibly-undefined width and height. -/
structure MetadataModel where
  metadata : List Nat → Except String (Option Nat × Option Nat)

/-- A `/compress` request body (`image`, optional `format`, `resize`,
`options`); absent JSON keys are `none`. -/
structure CompressRequest where
  image   : Option String := none
  format  : Option String := none
  resize  : Option ResizeRequest := none
  options : Option Options := none

/-- The `/compress` endpoint's observable response: a 200 JSON body
`{image, size, format}` or an error status with `{error}`. -/
inductive CompressResult where
  | ok (image : String) (size : Nat) (format : String)
  | error (status : Nat) (message : String)
deriving DecidableEq

/-- `server.ts` lines 134-172: the resize step is built and applied only
when `resize && resize.enabled`. -/
def resizePlan (resize : Option ResizeRequest) : Option ResizeOptions :=
  match resize with
  | some r => if r.enabled then some (buildResizeOptions r) else none
  | none => none

/-- The `/compress` handler, `server.ts` lines 98-260: destructure with
`format = "mozjpeg"` default, `options = req.body.options || {}`; reject a
missing or empty `image` with 400; base64-decode the input; construct the
sharp pipeline and apply the optional resize (lines 131 and 171 — BEFORE
the format switch, so a synchronous throw there is caught as a 500 with its
own message and the switch never runs); then dispatch on the format (the
`default` arm throws, caught as a 500 with the message
`Unsupported format: <format>`); run the encoder (a rejected promise is a
500 with the library's message); answer with the base64 of the output
buffer, its byte length, and the normalised format name. -/
def compressHandler (sharp : SharpModel) (req : CompressRequest) : CompressResult :=
  let format := req.format.getD "mozjpeg"
  let options := req.options.getD {}
  match req.image with
  | none => .error 400 "Image data required"
  | some image =>
    if image = "" then .error 400 "Image data required"
    else
      let imageBuffer := b64decode image
      let resizeOptions := resizePlan req.resize
      match sharp.create imageBuffer resizeOptions with
      | .error msg => .error 500 msg
      | .ok _ =>
        match encodeDispatch format options with
        | none => .error 500 ("Unsupported format: " ++ format)
        | some cfg =>
          match sharp.toBuffer imageBuffer resizeOptions cfg with
          | .error msg => .error 500 msg
          | .ok outputBuffer =>
              .ok (b64encode outputBuffer) outputBuffer.length (outputFormatOf format)

/-- A `/compress/file` multipart request after multer: the uploaded file's
bytes (if an `image` part was present), and the raw `format` and `options`
text fields. -/
structure FileRequest where
  file    : Option (List Nat) := none
  format  : Option String := none
  options : Option String := none

/-- The `/compress/file` endpoint's observable response: raw bytes with a
`Content-Type` and `Content-Length`, or an error status with `{error}`. -/
inductive FileResult where
  | ok (contentType : String) (contentLength : Nat) (body : List (Fin 256))
  | error (status : Nat) (message : String)
deriving DecidableEq

/-- The `/compress/file` handler, `server.ts` lines 266-367: a missing file
is 400 `No file uploaded`; `format = body.format || "mozjpeg"` (an empty
string is falsy); a truthy `options` field is `JSON.parse`d, failure being
400 `Invalid options JSON`; then `sharp(req.file.buffer)` is constructed
(line 293 — BEFORE the switch at line 297, so a synchronous throw, e.g.
`Input Buffer is empty` for a zero-byte upload, is caught as a 500 and the
switch never runs); the format switch's `default` arm answers 400
`Unsupported format: <format>`; otherwise the encoder runs on the uploaded
buffer (no resize on this path) and the raw bytes are sent with
`Content-Type` and `Content-Length`. `parseJson` models `JSON.parse`
restricted to an options object, `none` meaning it throws. -/
def compressFileHandler (sharp : SharpModel) (parseJson : String → Option Options)
    (req : FileRequest) : FileResult :=
  match req.file with
  | none => .error 400 "No file uploaded"
  | some fileBuffer =>
    let format := match req.format with
      | some f => if f = "" then "mozjpeg" else f
      | none => "mozjpeg"
    let parsedOptions : Except Unit Options :=
      match req.options with
      | some s =>
          if s = "" then .ok {}
          else match parseJson s with
            | some o => .ok o
            | none => .error ()
      | none => .ok {}
    match parsedOptions with
    | .error _ => .error 400 "Invalid options JSON"
    | .ok options =>
      match sharp.create fileBuffer none with
      | .error msg => .error 500 msg
      | .ok _ =>
        match encodeDispatch format options with
        | none => .error 400 ("Unsupported format: " ++ format)
        | some cfg =>
          match sharp.toBuffer fileBuffer none cfg with
          | .error msg => .error 500 msg
          | .ok outputBuffer =>
              .ok (contentTypeOf format) outputBuffer.length outputBuffer

/-- A `/info` request body. -/
structure InfoRequest where
  image : Option String := none

/-- The `/info` endpoint's observable response. -/
inductive InfoResult where
  | ok (width : Nat) (height : Nat)
  | error (status : Nat) (message : String)
deriving DecidableEq

/-- The `/info` handler, `server.ts` lines 60-96: a missing or empty `image`
is 400 `Image data required`; otherwise metadata is read, errors surfacing
as a 500 with the library's message, and `width`/`height` default to 0 when
undefined (`metadata.width || 0`). -/
def infoHandler (m : MetadataModel) (req : InfoRequest) : InfoResult :=
  match req.image with
  | none => .error 400 "Image data required"
  | some image =>
    if image = "" then .error 400 "Image data required"
    else
      match m.metadata (b64decode image) with
      | .error msg => .error 500 msg
      | .ok (w, h) => .ok (w.getD 0) (h.getD 0)

/-! ### The auth gate (`src/middleware/auth.ts`) -/

/-- Process-wide auth configuration: `ENABLE_AUTH === "true"` and `API_KEY`. -/
structure AuthConfig where
  enableAuth : Bool
  apiKey     : String
deriving DecidableEq

/-- What the middleware does with a request: answer an error response, or
call `next()` (with `req.apiKey` set on the validated path). -/
inductive AuthOutcome where
  | response (status : Nat) (error : String)
  | proceed (apiKey : Option String)
deriving DecidableEq

/-- `validateApiKey`, `auth.ts`: `req.headers["x-api-key"]` falsy (absent
header, or an empty value) is 401 `API key is required`; a value different
from the configured key is 403 `Invalid API key`; otherwise `req.apiKey` is
set and the handler runs. -/
def validateApiKey (config : AuthConfig) (header : Option String) : AuthOutcome :=
  match header with
  | none => .response 401 "API key is required"
  | some k =>
      if k = "" then .response 401 "API key is required"
      else if k ≠ config.apiKey then .response 403 "Invalid API key"
      else .proceed (some k)

/-- `optionalApiKey`, `auth.ts`: when auth is disabled, `next()` without any
check; when enabled, defer to `validateApiKey`. This middleware fronts the
three data endpoints `/info`, `/compress`, `/compress/file`. -/
def optionalApiKey (config : AuthConfig) (header : Option String) : AuthOutcome :=
  if config.enableAuth then validateApiKey config header else .proceed none

/-- A concrete pipeline oracle used to instantiate theorems: construction
always succeeds and every encode yields the two bytes `[77, 1]`. -/
def constSharp : SharpModel where
  create := fun _ _ => .ok ()
  toBuffer := fun _ _ _ => .ok [77, 1]

/-- A concrete pipeline oracle reproducing sharp's synchronous behaviour on
a zero-byte input: construction throws `Input Buffer is empty`; on any
other input construction succeeds and every encode yields `[77, 1]`. -/
def emptyThrowSharp : SharpModel where
  create := fun buf _ => if buf = [] then .error "Input Buffer is empty" else .ok ()
  toBuffer := fun buf _ _ =>
    if buf = [] then .error "Input Buffer is empty" else .ok [77, 1]

/-- A concrete metadata oracle: dimensions undefined. -/
def constMetadata : MetadataModel where
  metadata := fun _ => .ok (none, none)

/-- A concrete `JSON.parse` model that rejects every string. -/
def rejectParse : String → Option Options := fun _ => none

/-! ### Base64 round-trip -/

/-- Decoding a sextet's character recovers its value. -/
theorem sextetVal_sextetChar : ∀ n, n < 64 → sextetVal (sextetChar n) = n := by decide

/-- An alphabet character is never the padding character. -/
theorem sextetChar_ne_pad : ∀ n, n < 64 → (sextetChar n != '=') = true := by decide

/-- Base64-decoding a base64 encoding recovers the bytes. -/
theorem b64decodeChars_encodeChars : ∀ l : List (Fin 256),
    b64decodeChars (b64encodeChars l) = l.map Fin.val
  | [] => rfl
  | [a] => by
      have ha := a.isLt
      have h0 : a.val / 4 < 64 := by omega
      have h1 : a.val % 4 * 16 < 64 := by omega
      simp only [b64encodeChars, b64decodeChars, List.takeWhile_cons,
        sextetChar_ne_pad _ h0, sextetChar_ne_pad _ h1, if_true,
        List.map_cons, List.map_nil,
        sextetVal_sextetChar _ h0, sextetVal_sextetChar _ h1]
      norm_num [List.takeWhile, sextetsToBytes]
      omega
  | [a, b] => by
      have ha := a.isLt
      have hb := b.isLt
      have h0 : a.val / 4 < 64 := by omega
      have h1 : a.val % 4 * 16 + b.val / 16 < 64 := by omega
      have h2 : b.val % 16 * 4 < 64 := by omega
      simp only [b64encodeChars, b64decodeChars, List.takeWhile_cons,
        sextetChar_ne_pad _ h0, sextetChar_ne_pad _ h1, sextetChar_ne_pad _ h2, if_true,
        List.map_cons, List.map_nil,
        sextetVal_sextetChar _ h0, sextetVal_sextetChar _ h1, sextetVal_sextetChar _ h2]
      norm_num [List.takeWhile, sextetsToBytes]
      constructor
      · omega
      · omega
  | a :: b :: c :: rest => by
      have ha := a.isLt
      have hb := b.isLt
      have hc := c.isLt
      have h0 : a.val / 4 < 64 := by omega
      have h1 : a.val % 4 * 16 + b.val / 16 < 64 := by omega
      have h2 : b.val % 16 * 4 + c.val / 64 < 64 := by omega
      have h3 : c.val % 64 < 64 := by omega
      have ih := b64decodeChars_encodeChars rest
      simp only [b64decodeChars] at ih
      simp only [b64encodeChars, b64decodeChars, List.takeWhile_cons,
        sextetChar_ne_pad _ h0, sextetChar_ne_pad _ h1, sextetChar_ne_pad _ h2,
        sextetChar_ne_pad _ h3, if_true,
        List.map_cons,
        sextetVal_sextetChar _ h0, sextetVal_sextetChar _ h1,
        sextetVal_sextetChar _ h2, sextetVal_sextetChar _ h3,
        sextetsToBytes, ih, List.cons.injEq, and_true]
      refine ⟨by omega, by omega, by omega⟩

/-- String-level round-trip: `Buffer.from(buf.toString("base64"), "base64")`
gives back `buf`'s bytes. -/
theorem b64decode_b64encode (l : List (Fin 256)) :
    b64decode (b64encode l) = l.map Fin.val := by
  simpa [b64decode, b64encode] using b64decodeChars_encodeChars l

/-- Length form of the round-trip. -/
theorem b64decode_b64encode_length (l : List (Fin 256)) :
    (b64decode (b64encode l)).length = l.length := by
  rw [b64decode_b64encode, List.length_map]

/-! ### Handler inversion -/

/-- Inversion of a 200 response from `/compress`: the `image` field is the
base64 of the encoded output buffer, `size` is that buffer's length, and
`format` is the normalised name of the (defaulted) requested format. -/
theorem compressHandler_ok_inv (sharp : SharpModel) (req : CompressRequest)
    (img fmt : String) (sz : Nat)
    (hok : compressHandler sharp req = .ok img sz fmt) :
    ∃ out : List (Fin 256),
      img = b64encode out ∧ sz = out.length ∧
      fmt = outputFormatOf (req.format.getD "mozjpeg") := by
  simp only [compressHandler] at hok
  split at hok
  · exact absurd hok (by simp)
  · split at hok
    · exact absurd hok (by simp)
    · split at hok
      · exact absurd hok (by simp)
      · split at hok
        · exact absurd hok (by simp)
        · split at hok
          · exact absurd hok (by simp)
          · rename_i out heq
            injection hok with h1 h2 h3
            exact ⟨out, h1.symm, h2.symm, h3.symm⟩

/-- An unrecognised format string makes the shared format switch fall to its
`default` arm. -/
theorem encodeDispatch_eq_none (f : String) (options : Options)
    (hns : ¬(f = "mozjpeg" ∨ f = "jpeg" ∨ f = "webp" ∨ f = "avif" ∨
             f = "oxipng" ∨ f = "png")) :
    encodeDispatch f options = none := by
  push_neg at hns
  obtain ⟨h1, h2, h3, h4, h5, h6⟩ := hns
  simp [encodeDispatch, h1, h2, h3, h4, h5, h6]

/-! ### Claims -/

/-- Claim C1: for every `/compress` request with a supported format and a
valid image (i.e. whenever the handler answers 200), the `format` field of
the response is the canonical alias: `"mozjpeg"` when the caller sent
`"mozjpeg"` or `"jpeg"`, `"oxipng"` when the caller sent `"oxipng"` or
`"png"`, and the caller's own string for `"webp"` and `"avif"`. -/
theorem compress_format_alias (sharp : SharpModel) (req : CompressRequest)
    (f img fmt : String) (sz : Nat)
    (hf : req.format = some f)
    (_hsupp : f = "mozjpeg" ∨ f = "jpeg" ∨ f = "webp" ∨ f = "avif" ∨
             f = "oxipng" ∨ f = "png")
    (hok : compressHandler sharp req = .ok img sz fmt) :
    fmt = (if f = "mozjpeg" ∨ f = "jpeg" then "mozjpeg"
           else if f = "oxipng" ∨ f = "png" then "oxipng"
           else f) := by
  obtain ⟨out, h1, h2, h3⟩ := compressHandler_ok_inv sharp req img fmt sz hok
  rw [hf] at h3
  simpa [outputFormatOf] using h3

/-- Witness for C1 at a concrete request: the caller sends `"jpeg"`, the
response reports `"mozjpeg"`. -/
theorem compress_format_alias_witness :
    compressHandler constSharp { image := some "AA", format := some "jpeg" } =
      .ok "TQE=" 2 "mozjpeg" ∧
    ("mozjpeg" : String) =
      (if ("jpeg" : String) = "mozjpeg" ∨ ("jpeg" : String) = "jpeg" then "mozjpeg"
       else if ("jpeg" : String) = "oxipng" ∨ ("jpeg" : String) = "png" then "oxipng"
       else "jpeg") :=
  ⟨by decide,
   compress_format_alias constSharp { image := some "AA", format := some "jpeg" }
     "jpeg" "TQE=" "mozjpeg" 2 rfl (Or.inr (Or.inl rfl)) (by decide)⟩

/-- Claim C2: for every successful `/compress` response, the `size` field is
the byte length of the encoded output buffer, which is also the exact byte
length obtained by base64-decoding the response's `image` field (base64
encode then decode round-trips to the same bytes). -/
theorem compress_size_base64 (sharp : SharpModel) (req : CompressRequest)
    (img fmt : String) (sz : Nat)
    (hok : compressHandler sharp req = .ok img sz fmt) :
    (∃ out : List (Fin 256), img = b64encode out ∧ sz = out.length) ∧
    sz = (b64decode img).length := by
  obtain ⟨out, h1, h2, _⟩ := compressHandler_ok_inv sharp req img fmt sz hok
  subst h1
  subst h2
  exact ⟨⟨out, rfl, rfl⟩, (b64decode_b64encode_length out).symm⟩

/-- Witness for C2 at a concrete request: the output buffer `[77, 1]` is
reported as `"TQE="` with size 2, and decoding `"TQE="` indeed gives 2
bytes. -/
theorem compress_size_base64_witness :
    compressHandler constSharp { image := some "AA" } = .ok "TQE=" 2 "mozjpeg" ∧
    (2 : Nat) = (b64decode "TQE=").length :=
  ⟨by decide,
   (compress_size_base64 constSharp { image := some "AA" } "TQE=" "mozjpeg" 2 (by decide)).2⟩

/-- Claim C3, amended: for a format string not among the six supported
names, PROVIDED the synchronous pipeline construction accepts the input
(`sharp(buffer)` and any resize do not throw — e.g. the buffer is not
empty), `/compress` (with an image present) answers 500 with message
`Unsupported format: <format>`, and `/compress/file` (with a file present,
well-formed options, and a NON-EMPTY format string) answers 400 with the
same message. The original claim fails in two ways (see the
counterexample): the file path's `body.format || "mozjpeg"` treats `""` as
absent and silently encodes as mozjpeg instead of rejecting; and because
`sharp()` is constructed before the format switch, an input it throws on
(a zero-byte buffer) yields a 500 with the construction's own message —
`Input Buffer is empty` — on both paths, never the unsupported-format
response. -/
theorem unsupported_format_responses (sharp : SharpModel)
    (parseJson : String → Option Options)
    (req : CompressRequest) (freq : FileRequest) (f : String)
    (hns : ¬(f = "mozjpeg" ∨ f = "jpeg" ∨ f = "webp" ∨ f = "avif" ∨
             f = "oxipng" ∨ f = "png")) :
    (req.format = some f → ∀ s, req.image = some s → s ≠ "" →
        sharp.create (b64decode s) (resizePlan req.resize) = .ok () →
        compressHandler sharp req = .error 500 ("Unsupported format: " ++ f)) ∧
    (freq.format = some f → f ≠ "" →
      (∀ s, freq.options = some s → s ≠ "" → parseJson s ≠ none) →
      ∀ buf, freq.file = some buf → sharp.create buf none = .ok () →
        compressFileHandler sharp parseJson freq =
          .error 400 ("Unsupported format: " ++ f)) := by
  constructor
  · intro hf s hs hne hcr
    simp only [compressHandler, hf, hs, Option.getD_some, if_neg hne, hcr,
      encodeDispatch_eq_none f _ hns]
  · intro hf hfne hopts buf hbuf hcr
    simp only [compressFileHandler, hbuf, hf, if_neg hfne]
    cases hos : freq.options with
    | none =>
        simp [hcr, encodeDispatch_eq_none f _ hns]
    | some s =>
        by_cases hse : s = ""
        · simp [hse, hcr, encodeDispatch_eq_none f _ hns]
        · cases hps : parseJson s with
          | none => exact absurd hps (hopts s hos hse)
          | some o =>
              simp [if_neg hse, hps, hcr, encodeDispatch_eq_none f _ hns]

/-- Witness for the amended C3, under the oracle that throws on empty
buffers: format `"bmp"` with a one-byte (accepted) input gets a 500 with
message on `/compress` and a 400 with the same message on
`/compress/file`. -/
theorem unsupported_format_responses_witness :
    compressHandler emptyThrowSharp { image := some "AA", format := some "bmp" } =
      .error 500 ("Unsupported format: " ++ "bmp") ∧
    compressFileHandler emptyThrowSharp rejectParse
        { file := some [1], format := some "bmp", options := none } =
      .error 400 ("Unsupported format: " ++ "bmp") := by
  have h := unsupported_format_responses emptyThrowSharp rejectParse
    { image := some "AA", format := some "bmp" }
    { file := some [1], format := some "bmp", options := none } "bmp" (by decide)
  exact ⟨h.1 rfl "AA" rfl (by decide) rfl,
         h.2 rfl (by decide) (fun s hs _ => by simp at hs) [1] rfl rfl⟩

/-- Counterexample to C3 as stated, two ways. First, the empty string is
not a supported format name, yet `/compress/file` with `format=""` and a
(one-byte, accepted) file does not answer 400 `Unsupported format:` — it
silently encodes as mozjpeg. Second, a zero-byte upload with
`format="bmp"` is answered 500 `Input Buffer is empty` — the `sharp()`
construction at line 293 throws before the format switch runs — not the
400 `Unsupported format: bmp` the claim asserts for every such request. -/
theorem unsupported_format_counterexample :
    compressFileHandler emptyThrowSharp rejectParse
        { file := some [1], format := some "", options := none } =
      .ok "image/jpeg" 2 [77, 1] ∧
    ¬(("" : String) = "mozjpeg" ∨ ("" : String) = "jpeg" ∨ ("" : String) = "webp" ∨
      ("" : String) = "avif" ∨ ("" : String) = "oxipng" ∨ ("" : String) = "png") ∧
    compressFileHandler emptyThrowSharp rejectParse
        { file := some [1], format := some "", options := none } ≠
      .error 400 ("Unsupported format: " ++ "") ∧
    compressFileHandler emptyThrowSharp rejectParse
        { file := some [], format := some "bmp", options := none } =
      .error 500 "Input Buffer is empty" ∧
    compressFileHandler emptyThrowSharp rejectParse
        { file := some [], format := some "bmp", options := none } ≠
      .error 400 ("Unsupported format: " ++ "bmp") := by
  refine ⟨by decide, by decide, by decide, by decide, by decide⟩

/-- Claim C4: the resize planner maps `fitMethod` `"stretch"` to fill,
`"contain"` to inside, and anything else or absent to (the effective) cover;
`method` `"lanczos3"` to lanczos3, `"mitchell"` to mitchell, `"catrom"` to
cubic, anything else or absent to lanczos3; and width/height reach the
resize invocation only when present in the request. (When a field was not
assigned by the service the library default — cover / lanczos3 — applies,
which the `effective` projections express.) -/
theorem resize_planner_mapping (r : ResizeRequest) (_henabled : r.enabled = true) :
    (r.fitMethod = some "stretch" → (buildResizeOptions r).effectiveFit = .fill) ∧
    (r.fitMethod = some "contain" → (buildResizeOptions r).effectiveFit = .inside) ∧
    (∀ s, r.fitMethod = some s → s ≠ "stretch" → s ≠ "contain" →
        (buildResizeOptions r).effectiveFit = .cover) ∧
    (r.fitMethod = none → (buildResizeOptions r).effectiveFit = .cover) ∧
    (r.method = some "lanczos3" → (buildResizeOptions r).effectiveKernel = .lanczos3) ∧
    (r.method = some "mitchell" → (buildResizeOptions r).effectiveKernel = .mitchell) ∧
    (r.method = some "catrom" → (buildResizeOptions r).effectiveKernel = .cubic) ∧
    (∀ s, r.method = some s → s ≠ "lanczos3" → s ≠ "mitchell" → s ≠ "catrom" →
        (buildResizeOptions r).effectiveKernel = .lanczos3) ∧
    (r.method = none → (buildResizeOptions r).effectiveKernel = .lanczos3) ∧
    (∀ w, (buildResizeOptions r).width = some w → r.width = some w) ∧
    (∀ h, (buildResizeOptions r).height = some h → r.height = some h) := by
  refine ⟨?_, ?_, ?_, ?_, ?_, ?_, ?_, ?_, ?_, ?_, ?_⟩
  · intro hf
    simp [buildResizeOptions, ResizeOptions.effectiveFit, hf]
  · intro hf
    simp [buildResizeOptions, ResizeOptions.effectiveFit, hf]
  · intro s hf hs1 hs2
    by_cases hse : s = ""
    · simp [buildResizeOptions, ResizeOptions.effectiveFit, hf, hse]
    · simp [buildResizeOptions, ResizeOptions.effectiveFit, hf, hse, hs1, hs2]
  · intro hf
    simp [buildResizeOptions, ResizeOptions.effectiveFit, hf]
  · intro hm
    simp [buildResizeOptions, ResizeOptions.effectiveKernel, hm]
  · intro hm
    simp [buildResizeOptions, ResizeOptions.effectiveKernel, hm]
  · intro hm
    simp [buildResizeOptions, ResizeOptions.effectiveKernel, hm]
  · intro s hm hs1 hs2 hs3
    by_cases hse : s = ""
    · simp [buildResizeOptions, ResizeOptions.effectiveKernel, hm, hse]
    · simp [buildResizeOptions, ResizeOptions.effectiveKernel, hm, hse, hs1, hs2, hs3]
  · intro hm
    simp [buildResizeOptions, ResizeOptions.effectiveKernel, hm]
  · intro w hw
    cases hrw : r.width with
    | none => simp [buildResizeOptions, hrw] at hw
    | some v =>
        simp only [buildResizeOptions, hrw] at hw
        by_cases hv : v = 0
        · simp [hv] at hw
        · simp [hv] at hw
          rw [hw]
  · intro h hh
    cases hrh : r.height with
    | none => simp [buildResizeOptions, hrh] at hh
    | some v =>
        simp only [buildResizeOptions, hrh] at hh
        by_cases hv : v = 0
        · simp [hv] at hh
        · simp [hv] at hh
          rw [hh]

/-- Witness for C4 at a concrete resize request: `stretch`/`catrom` with
width 800 map to fill/cubic. -/
theorem resize_planner_mapping_witness :
    (buildResizeOptions
        { enabled := true, width := some 800, fitMethod := some "stretch",
          method := some "catrom" }).effectiveFit = .fill ∧
    (buildResizeOptions
        { enabled := true, width := some 800, fitMethod := some "stretch",
          method := some "catrom" }).effectiveKernel = .cubic :=
  ⟨(resize_planner_mapping
      { enabled := true, width := some 800, fitMethod := some "stretch",
        method := some "catrom" } rfl).1 rfl,
   (resize_planner_mapping
      { enabled := true, width := some 800, fitMethod := some "stretch",
        method := some "catrom" } rfl).2.2.2.2.2.2.1 rfl⟩

/-- Claim C5: for format mozjpeg or jpeg (on either endpoint — both call the
same switch arm), quality defaults to 75 when not supplied, progressive is
true unless `options.progressive === false`, and mozjpeg is always true. -/
theorem jpeg_option_mapping (options : Options) :
    (options.quality = none → (jpegOptions options).quality = .num 75) ∧
    ((jpegOptions options).progressive = true ↔
        options.progressive ≠ some (JsVal.bool false)) ∧
    (jpegOptions options).mozjpeg = true ∧
    encodeDispatch "mozjpeg" options = some (.jpeg (jpegOptions options)) ∧
    encodeDispatch "jpeg" options = some (.jpeg (jpegOptions options)) := by
  refine ⟨?_, ?_, rfl, by simp [encodeDispatch], by simp [encodeDispatch]⟩
  · intro hq
    simp [jpegOptions, jsOr, hq]
  · simp [jpegOptions, jsNeqFalse]

/-- Witness for C5 at the empty options bag. -/
theorem jpeg_option_mapping_witness :
    (jpegOptions {}).quality = JsVal.num 75 ∧ (jpegOptions {}).mozjpeg = true :=
  ⟨(jpeg_option_mapping {}).1 rfl, (jpeg_option_mapping {}).2.2.1⟩

/-- Counterexample to C6 as stated: with `options.method` supplied as 0, the
webp `effort` is 4, not the supplied 0 — `options.method || 4` treats 0 as
absent. -/
theorem webp_effort_zero_counterexample :
    ({ method := some (JsVal.num 0) } : Options).method = some (JsVal.num 0) ∧
    (webpOptions { method := some (JsVal.num 0) }).effort = JsVal.num 4 ∧
    JsVal.num 4 ≠ JsVal.num 0 := by
  refine ⟨rfl, by decide, by decide⟩

/-- Claim C6, amended: for format webp, quality defaults to 75, lossless is
true iff `options.lossless === true`, nearLossless iff
`options.near_lossless === true`, smartSubsample is true unless
`options.use_sharp_yuv === false`, and effort equals `options.method` when
supplied AND TRUTHY; when `options.method` is absent or falsy (for a
number: zero), effort is 4. (The original claim's "effort equals
options.method when supplied" fails at `method = 0`.) -/
theorem webp_option_mapping (options : Options) :
    (options.quality = none → (webpOptions options).quality = .num 75) ∧
    ((webpOptions options).lossless = true ↔
        options.lossless = some (JsVal.bool true)) ∧
    ((webpOptions options).nearLossless = true ↔
        options.near_lossless = some (JsVal.bool true)) ∧
    ((webpOptions options).smartSubsample = true ↔
        options.use_sharp_yuv ≠ some (JsVal.bool false)) ∧
    (∀ v, options.method = some v → v.truthy = true →
        (webpOptions options).effort = v) ∧
    (options.method = none → (webpOptions options).effort = .num 4) ∧
    (∀ v, options.method = some v → v.truthy = false →
        (webpOptions options).effort = .num 4) ∧
    encodeDispatch "webp" options = some (.webp (webpOptions options)) := by
  refine ⟨?_, ?_, ?_, ?_, ?_, ?_, ?_, by simp [encodeDispatch]⟩
  · intro hq
    simp [webpOptions, jsOr, hq]
  · simp [webpOptions, jsEqTrue]
  · simp [webpOptions, jsEqTrue]
  · simp [webpOptions, jsNeqFalse]
  · intro v hv htr
    simp [webpOptions, jsOr, hv, htr]
  · intro hm
    simp [webpOptions, jsOr, hm]
  · intro v hv htr
    simp [webpOptions, jsOr, hv, htr]

/-- Witness for the amended C6: a truthy supplied method (6) becomes the
effort, an absent method gives effort 4. -/
theorem webp_option_mapping_witness :
    (webpOptions { method := some (JsVal.num 6) }).effort = JsVal.num 6 ∧
    (webpOptions {}).effort = JsVal.num 4 :=
  ⟨(webp_option_mapping { method := some (JsVal.num 6) }).2.2.2.2.1
      (JsVal.num 6) rfl (by decide),
   (webp_option_mapping {}).2.2.2.2.2.1 rfl⟩

/-- Counterexample to C7 as stated: with auth enabled, a request carrying an
EMPTY `x-api-key` header value different from the configured key is
answered 401 `API key is required`, not 403 `Invalid API key` — the
middleware's `if (!apiKey)` treats the empty string as an absent key. -/
theorem auth_empty_key_counterexample :
    optionalApiKey { enableAuth := true, apiKey := "secret" } (some "") =
      .response 401 "API key is required" ∧
    ("" : String) ≠ "secret" ∧
    optionalApiKey { enableAuth := true, apiKey := "secret" } (some "") ≠
      .response 403 "Invalid API key" := by
  refine ⟨by decide, by decide, by decide⟩

/-- Claim C7, amended: when the auth flag is true, a request whose
`x-api-key` header is absent OR EMPTY gets 401 `API key is required`; a
request with a NON-EMPTY key different from the configured key gets 403
`Invalid API key`; a request with a non-empty key equal to the configured
key proceeds to the handler; when the flag is false, no check is performed
and every request proceeds. (The original claim routes every mismatched key
to 403; the empty-string key is mismatched yet gets 401.) -/
theorem auth_gate_behavior (config : AuthConfig) (header : Option String) :
    (config.enableAuth = true →
      ((header = none ∨ header = some "") →
          optionalApiKey config header = .response 401 "API key is required") ∧
      (∀ k, header = some k → k ≠ "" → k ≠ config.apiKey →
          optionalApiKey config header = .response 403 "Invalid API key") ∧
      (∀ k, header = some k → k ≠ "" → k = config.apiKey →
          optionalApiKey config header = .proceed (some k))) ∧
    (config.enableAuth = false → optionalApiKey config header = .proceed none) := by
  constructor
  · intro hen
    refine ⟨?_, ?_, ?_⟩
    · rintro (hh | hh) <;> simp [optionalApiKey, validateApiKey, hen, hh]
    · intro k hh hke hkm
      simp [optionalApiKey, validateApiKey, hen, hh, hke, hkm]
    · intro k hh hke hkm
      subst hkm
      simp [optionalApiKey, validateApiKey, hen, hh, hke]
  · intro hen
    simp [optionalApiKey, hen]

/-- Witness for the amended C7 at concrete keys: absent header 401, wrong
key 403, right key proceeds, auth disabled proceeds. -/
theorem auth_gate_behavior_witness :
    optionalApiKey { enableAuth := true, apiKey := "secret" } none =
      .response 401 "API key is required" ∧
    optionalApiKey { enableAuth := true, apiKey := "secret" } (some "wrong") =
      .response 403 "Invalid API key" ∧
    optionalApiKey { enableAuth := true, apiKey := "secret" } (some "secret") =
      .proceed (some "secret") ∧
    optionalApiKey { enableAuth := false, apiKey := "secret" } (some "wrong") =
      .proceed none :=
  ⟨((auth_gate_behavior { enableAuth := true, apiKey := "secret" } none).1 rfl).1
      (Or.inl rfl),
   ((auth_gate_behavior { enableAuth := true, apiKey := "secret" } (some "wrong")).1
      rfl).2.1 "wrong" rfl (by decide) (by decide),
   ((auth_gate_behavior { enableAuth := true, apiKey := "secret" } (some "secret")).1
      rfl).2.2 "secret" rfl (by decide) rfl,
   (auth_gate_behavior { enableAuth := false, apiKey := "secret" } (some "wrong")).2
      rfl⟩

/-- Claim C8: a `/info` or `/compress` request with a missing (or empty)
`image` field is answered 400 `Image data required`. No decoding or
encoding is attempted: the metadata and pipeline oracles are universally
quantified and the response is the same constant for every one of them. -/
theorem missing_image_400 (m : MetadataModel) (sharp : SharpModel)
    (ireq : InfoRequest) (creq : CompressRequest)
    (hi : ireq.image = none ∨ ireq.image = some "")
    (hc : creq.image = none ∨ creq.image = some "") :
    infoHandler m ireq = .error 400 "Image data required" ∧
    compressHandler sharp creq = .error 400 "Image data required" := by
  constructor
  · rcases hi with hh | hh <;> simp [infoHandler, hh]
  · rcases hc with hh | hh <;> simp [compressHandler, hh]

/-- Witness for C8: a request with no `image` key and a request with an
empty `image` string are both rejected. -/
theorem missing_image_400_witness :
    infoHandler constMetadata { image := none } = .error 400 "Image data required" ∧
    compressHandler constSharp { image := some "" } =
      .error 400 "Image data required" :=
  missing_image_400 constMetadata constSharp { image := none } { image := some "" }
    (Or.inl rfl) (Or.inr rfl)

/-- Claim C9: `/compress/file` answers 400 `No file uploaded` when no file
part is present — for EVERY options field and every `JSON.parse` behaviour,
so the missing-file check precedes options parsing — and 400
`Invalid options JSON` when a file is present but the `options` field is a
non-empty string that `JSON.parse` rejects. -/
theorem file_upload_validation (sharp : SharpModel)
    (parseJson : String → Option Options) (req : FileRequest) :
    (req.file = none →
        compressFileHandler sharp parseJson req = .error 400 "No file uploaded") ∧
    (∀ buf s, req.file = some buf → req.options = some s → s ≠ "" →
        parseJson s = none →
        compressFileHandler sharp parseJson req =
          .error 400 "Invalid options JSON") := by
  constructor
  · intro hf
    simp [compressFileHandler, hf]
  · intro buf s hf hos hse hps
    simp [compressFileHandler, hf, hos, hse, hps]

/-- Witness for C9: no file (even alongside an unparseable options field)
gives `No file uploaded`; a file with an unparseable options field gives
`Invalid options JSON`. -/
theorem file_upload_validation_witness :
    compressFileHandler constSharp rejectParse
        { file := none, options := some "notjson" } =
      .error 400 "No file uploaded" ∧
    compressFileHandler constSharp rejectParse
        { file := some [], options := some "notjson" } =
      .error 400 "Invalid options JSON" :=
  ⟨(file_upload_validation constSharp rejectParse
      { file := none, options := some "notjson" }).1 rfl,
   (file_upload_validation constSharp rejectParse
      { file := some [], options := some "notjson" }).2 [] "notjson" rfl rfl
      (by decide) rfl⟩

/-- Claim C10: for EVERY options bag and resize request, a caller-supplied
numeric option equal to 0 is treated as absent by the `||` defaulting
(quality 0 becomes 75 for jpeg/webp and 50 for avif, webp `method` 0
becomes effort 4, avif `effort` 0 becomes 4, png `effort` 0 becomes 7, png
`level` 0 becomes compressionLevel 2), and a resize width or height of 0
is dropped from the resize invocation, whatever the other fields hold. -/
theorem zero_option_truthiness (options : Options) (r : ResizeRequest) :
    (options.quality = some (JsVal.num 0) →
        (jpegOptions options).quality = JsVal.num 75 ∧
        (webpOptions options).quality = JsVal.num 75 ∧
        (avifOptions options).quality = JsVal.num 50) ∧
    (options.method = some (JsVal.num 0) →
        (webpOptions options).effort = JsVal.num 4) ∧
    (options.effort = some (JsVal.num 0) →
        (avifOptions options).effort = JsVal.num 4 ∧
        (pngOptions options).effort = JsVal.num 7) ∧
    (options.level = some (JsVal.num 0) →
        (pngOptions options).compressionLevel = JsVal.num 2) ∧
    (r.width = some 0 → (buildResizeOptions r).width = none) ∧
    (r.height = some 0 → (buildResizeOptions r).height = none) := by
  refine ⟨?_, ?_, ?_, ?_, ?_, ?_⟩
  · intro h
    refine ⟨?_, ?_, ?_⟩ <;>
      simp [jpegOptions, webpOptions, avifOptions, jsOr, h, JsVal.truthy]
  · intro h
    simp [webpOptions, jsOr, h, JsVal.truthy]
  · intro h
    constructor <;> simp [avifOptions, pngOptions, jsOr, h, JsVal.truthy]
  · intro h
    simp [pngOptions, jsOr, h, JsVal.truthy]
  · intro h
    simp [buildResizeOptions, h]
  · intro h
    simp [buildResizeOptions, h]

/-- An options bag supplying 0 for every numeric option the service reads
through `||`. -/
def zeroOptions : Options :=
  { quality := some (JsVal.num 0), method := some (JsVal.num 0),
    effort := some (JsVal.num 0), level := some (JsVal.num 0) }

/-- An enabled resize request with zero width and height. -/
def zeroResize : ResizeRequest :=
  { enabled := true, width := some 0, height := some 0 }

/-- Witness for C10 at a bag supplying 0 for every numeric option at once
and a resize request with zero dimensions. -/
theorem zero_option_truthiness_witness :
    (jpegOptions zeroOptions).quality = JsVal.num 75 ∧
    (webpOptions zeroOptions).quality = JsVal.num 75 ∧
    (avifOptions zeroOptions).quality = JsVal.num 50 ∧
    (webpOptions zeroOptions).effort = JsVal.num 4 ∧
    (avifOptions zeroOptions).effort = JsVal.num 4 ∧
    (pngOptions zeroOptions).effort = JsVal.num 7 ∧
    (pngOptions zeroOptions).compressionLevel = JsVal.num 2 ∧
    (buildResizeOptions zeroResize).width = none ∧
    (buildResizeOptions zeroResize).height = none := by
  have h := zero_option_truthiness zeroOptions zeroResize
  exact ⟨(h.1 rfl).1, (h.1 rfl).2.1, (h.1 rfl).2.2, h.2.1 rfl,
         (h.2.2.1 rfl).1, (h.2.2.1 rfl).2, h.2.2.2.1 rfl,
         h.2.2.2.2.1 rfl, h.2.2.2.2.2 rfl⟩

end ImageCompressor
